import Mathlib

/-!
Verification development for the voting/delegation frontend
(proposal detail page, voting panel, delegate/vote modals, suggestion display).

Times are modelled as integer milliseconds since the epoch, matching
`Date.getTime()`.  JavaScript's `Math.floor(a / b)` on an exact integer
quotient with a positive divisor is floored division, which is Lean's
`Int` division `/` (Euclidean division, equal to floor division for a
positive divisor).
-/

namespace Frontend

/-- Status values returned by `getProposalStatus` in ProposalDetailPage.tsx. -/
inductive ProposalStatus where
  | EXPIRED
  | ENDING_SOON
  | ACTIVE
deriving DecidableEq, Repr

/-- Source function `getProposalStatus` (ProposalDetailPage.tsx):
`diffMs = deadline - now; diffHours = Math.floor(diffMs / 3600000);
 if (diffMs <= 0) EXPIRED; if (diffHours <= 24) "ENDING SOON"; else ACTIVE`. -/
def getProposalStatus (deadlineMs nowMs : Int) : ProposalStatus :=
  let diffMs := deadlineMs - nowMs
  let diffHours := diffMs / 3600000
  if diffMs ≤ 0 then .EXPIRED
  else if diffHours ≤ 24 then .ENDING_SOON
  else .ACTIVE

/-- The return sites of `getTimeRemaining` (ProposalDetailPage.tsx), with the
numeric payload of each rendered string kept explicit. -/
inductive TimeRemaining where
  | votingEnded
  | daysLeft (n : Int)
  | hoursLeft (n : Int)
  | minutesLeft (n : Int)
deriving DecidableEq, Repr

/-- Source function `getTimeRemaining` (ProposalDetailPage.tsx):
`if (diffMs <= 0) "Voting has ended";
 diffDays = Math.floor(diffMs / 86400000); diffHours = Math.floor(diffMs / 3600000);
 if (diffDays > 0) "N days left" else if (diffHours > 0) "N hours left"
 else "max(1, Math.floor(diffMs / 60000)) minutes left"`. -/
def getTimeRemaining (deadlineMs nowMs : Int) : TimeRemaining :=
  let diffMs := deadlineMs - nowMs
  if diffMs ≤ 0 then .votingEnded
  else
    let diffDays := diffMs / 86400000
    let diffHours := diffMs / 3600000
    if diffDays > 0 then .daysLeft diffDays
    else if diffHours > 0 then .hoursLeft diffHours
    else .minutesLeft (max 1 (diffMs / 60000))

/-- A `TimeRemaining` value that renders as a positive "N days/hours/minutes
left" string. -/
def TimeRemaining.positiveLeft : TimeRemaining → Prop
  | .votingEnded => False
  | .daysLeft n => 0 < n
  | .hoursLeft n => 0 < n
  | .minutesLeft n => 0 < n

instance : DecidablePred TimeRemaining.positiveLeft := by
  intro t
  cases t <;> simp [TimeRemaining.positiveLeft] <;> infer_instance

/-- Source function `canCreateSuggestions` (ProposalDetailPage.tsx):
`oneHourFromNow = now + 3600000; return deadline > oneHourFromNow`. -/
def canCreateSuggestions (deadlineMs nowMs : Int) : Bool :=
  deadlineMs > nowMs + 60 * 60 * 1000

/-- The `delegate_info` sub-object of the user status. -/
structure DelegateInfo where
  unique_id : String
  name : String
deriving DecidableEq, Repr

/-- The `selected_option` sub-object of the user status. -/
structure SelectedOption where
  option_number : Nat
  option_text : String
deriving DecidableEq, Repr

/-- The `user_status` object of the voting-status API response (VotingPanel.tsx,
SuggestionDisplay.tsx, VotingStatus.tsx).  Optional fields are `Option`;
a JavaScript `undefined` is `none`. -/
structure UserStatus where
  has_voted : Bool
  voted_option : Option Nat
  selected_option : Option SelectedOption
  has_delegated : Bool
  delegate_info : Option DelegateInfo
  can_act : Bool
  cooldown_active : Bool
deriving DecidableEq, Repr

/-- Shape of the full `/voting-status` response stored by
`setVotingStatus` (VotingPanel.tsx). -/
structure VotingStatusData where
  proposal_id : String
  is_active : Bool
  time_remaining_seconds : Int
  user_status : UserStatus
deriving DecidableEq, Repr

/-- Outcome of one `apiFetch` of the voting-status endpoint. -/
inductive FetchResult where
  | ok (data : VotingStatusData)
  | httpError
  | networkError
deriving DecidableEq, Repr

/-- Response handling of `loadVotingStatus` (VotingPanel.tsx lines 68-88 and
ProposalDetailPage.tsx lines 203-220): `response.ok` stores the parsed data,
any non-ok response or thrown error stores `null`. -/
def loadVotingStatusResult : FetchResult → Option VotingStatusData
  | .ok data => some data
  | .httpError => none
  | .networkError => none

/-- A completed voting-status response, tagged with the initiation sequence
number of the request it answers (the tag exists only in the model; the
source carries no such tag). -/
structure RefreshResponse where
  reqSeq : Nat
  result : FetchResult
deriving DecidableEq, Repr

/-- What `loadVotingStatus` does when one response completes: it calls
`setVotingStatus` unconditionally, replacing whatever is stored.  The
request tag is ignored because the source has no sequence guard. -/
def applyCompletedResponse (_store : Option VotingStatusData)
    (r : RefreshResponse) : Option VotingStatusData :=
  loadVotingStatusResult r.result

/-- The stored snapshot after a list of responses complete, applied in
completion order (list order = completion order). -/
def runResponses (init : Option VotingStatusData)
    (rs : List RefreshResponse) : Option VotingStatusData :=
  rs.foldl applyCompletedResponse init

/-- The `suggestion_type` field of a suggestion. -/
inductive SuggestionType where
  | vote_option
  | delegate
deriving DecidableEq, Repr

/-- The suggestion fields consulted by the applied check
(SuggestionDisplay.tsx). -/
structure Suggestion where
  suggestion_id : String
  suggestion_type : SuggestionType
  target_option_number : Option Nat
  target_user : Option String
deriving DecidableEq, Repr

/-- Source function `isSuggestionApplied` (SuggestionDisplay.tsx lines 75-95).  JavaScript
`===` between possibly-`undefined` values is `Option` equality, and
`delegate_info?.unique_id` is `delegate_info.map unique_id`. -/
def isSuggestionApplied (userVotingStatus : Option UserStatus)
    (suggestion : Suggestion) : Bool :=
  match userVotingStatus with
  | none => false
  | some st =>
    match suggestion.suggestion_type with
    | .vote_option =>
        st.has_voted && (st.voted_option == suggestion.target_option_number)
    | .delegate =>
        st.has_delegated &&
          (st.delegate_info.map DelegateInfo.unique_id == suggestion.target_user)

/-- Expression `votingStatus?.user_status?.cooldown_active` coerced to a boolean:
optional chaining yields `undefined` (falsy) when the status is `null`. -/
def cooldownActiveOf (votingStatus : Option VotingStatusData) : Bool :=
  (votingStatus.map fun v => v.user_status.cooldown_active).getD false

/-- Source expression `isButtonDisabled` (VotingPanel.tsx lines 135-137):
`deadlinePassed || (votingStatus?.user_status?.cooldown_active && !deadlinePassed)`. -/
def isButtonDisabled (deadlinePassed : Bool)
    (votingStatus : Option VotingStatusData) : Bool :=
  deadlinePassed || (cooldownActiveOf votingStatus && !deadlinePassed)

/-- The deadline-awareness effect (VotingPanel.tsx lines 91-98): on a stored
status it sets `deadlinePassed := !votingStatus.is_active`; with no stored
status it sets `true` when the `isExpired` prop holds, else leaves the
state unchanged. -/
def nextDeadlinePassed (deadlinePassed : Bool) (isExpired : Bool)
    (votingStatus : Option VotingStatusData) : Bool :=
  match votingStatus with
  | some vs => !vs.is_active
  | none => if isExpired then true else deadlinePassed

/-- The distinct renderings of the `VotingStatus` component, one constructor
per return site. -/
inductive StatusView where
  | loadingView
  | unableToLoad
  | votedView (opt : SelectedOption)
  | delegatedView (d : DelegateInfo)
  | notParticipated
deriving DecidableEq, Repr

/-- Rendering logic of the `VotingStatus` component: loading skeleton, then
"Unable to load voting status" for a `null` status, then the voted /
delegated / "You haven't participated yet" cases. -/
def renderVotingStatus (status : Option UserStatus) (loading : Bool) :
    StatusView :=
  if loading then .loadingView
  else
    match status with
    | none => .unableToLoad
    | some st =>
      match st.has_voted, st.selected_option with
      | true, some opt => .votedView opt
      | _, _ =>
        match st.has_delegated, st.delegate_info with
        | true, some d => .delegatedView d
        | _, _ => .notParticipated

/-- An entry of the organization user list fetched by DelegateModal.tsx. -/
structure OrganizationUser where
  unique_id : String
  first_name : String
  last_name : String
deriving DecidableEq, Repr

/-- Drop leading whitespace characters from a character list. -/
def dropLeadingWhitespace : List Char → List Char
  | [] => []
  | c :: cs => if c.isWhitespace then dropLeadingWhitespace cs else c :: cs

/-- Model of JavaScript `String.prototype.trim()`: strip whitespace from
both ends. -/
def jsTrim (s : String) : String :=
  ⟨(dropLeadingWhitespace (dropLeadingWhitespace s.data).reverse).reverse⟩

/-- Model of JavaScript `String.prototype.toLowerCase()`. -/
def jsToLower (s : String) : String :=
  ⟨s.data.map Char.toLower⟩

/-- Source computation `validation` (DelegateModal.tsx lines 92-107): invalid
when the trimmed input is empty, invalid when no fetched organization user's
`unique_id` equals the trimmed input case-insensitively, valid otherwise. -/
def delegateValidationValid (targetUser : String)
    (organizationUsers : List OrganizationUser) : Bool :=
  if jsTrim targetUser == "" then false
  else
    organizationUsers.any fun user =>
      jsToLower user.unique_id == jsToLower (jsTrim targetUser)

/-- Local submission state of a modal: the `submitting` flag. -/
structure ActionState where
  submitting : Bool
deriving DecidableEq, Repr

/-- Source function `handleSubmit` of DelegateModal.tsx (lines 130-146):
`if (!validation.valid || submitting) return;` — otherwise set
`submitting = true` and POST `{ target_user: targetUser.trim() }`.  The
second component is the dispatched request body, `none` when no network
request is issued. -/
def delegateHandleSubmit (targetUser : String)
    (organizationUsers : List OrganizationUser) (st : ActionState) :
    ActionState × Option String :=
  if !delegateValidationValid targetUser organizationUsers || st.submitting then
    (st, none)
  else
    (⟨true⟩, some (jsTrim targetUser))

/-- Source function `handleSubmit` of VoteModal.tsx (lines 50-66):
`if (!selectedOption || submitting) return;` — otherwise set
`submitting = true` and POST `{ option_number: selectedOption }`.  A
number is falsy exactly when it is 0. -/
def voteHandleSubmit (selectedOption : Nat) (st : ActionState) :
    ActionState × Option Nat :=
  if selectedOption == 0 || st.submitting then
    (st, none)
  else
    (⟨true⟩, some selectedOption)

/-- The `finally setSubmitting(false)` block that runs when a submission
settles (success, server error or network error). -/
def settleSubmit (_st : ActionState) : ActionState :=
  ⟨false⟩

/-- Sample voting-status payloads used in concrete scenarios. -/
def statusNotActed : VotingStatusData :=
  ⟨"p1", true, 100, ⟨false, none, none, false, none, true, false⟩⟩

/-- Sample voting-status payload where the user voted for option 1. -/
def statusVoted1 : VotingStatusData :=
  ⟨"p1", true, 50, ⟨true, some 1, some ⟨1, "Option one"⟩, false, none, true, false⟩⟩

/-- C2, counterexample: with 24 hours and 1 millisecond remaining the
deadline is strictly more than 24 hours away, so the claim requires
`ACTIVE`, yet `getProposalStatus` returns `ENDING_SOON` (it floors the
remaining whole hours and compares to 24). -/
theorem C2_classifier_counterexample :
    getProposalStatus 86400001 0 = ProposalStatus.ENDING_SOON ∧
    24 * 3600000 < 86400001 - (0 : Int) := by
  constructor
  · decide
  · decide

/-- C2, amended: `getProposalStatus` returns `EXPIRED` iff the deadline is
at most now; `ENDING_SOON` iff the deadline is strictly in the future and
strictly less than 25 hours away (floored whole hours remaining ≤ 24); and
`ACTIVE` iff at least 25 hours remain. -/
theorem C2_classifier_amended (deadlineMs nowMs : Int) :
    (getProposalStatus deadlineMs nowMs = ProposalStatus.EXPIRED ↔
      deadlineMs - nowMs ≤ 0) ∧
    (getProposalStatus deadlineMs nowMs = ProposalStatus.ENDING_SOON ↔
      0 < deadlineMs - nowMs ∧ deadlineMs - nowMs < 25 * 3600000) ∧
    (getProposalStatus deadlineMs nowMs = ProposalStatus.ACTIVE ↔
      25 * 3600000 ≤ deadlineMs - nowMs) := by
  simp only [getProposalStatus]
  split_ifs with h1 h2 <;> simp_all <;> omega

/-- C6: `canCreateSuggestions` returns true iff the deadline is strictly
more than 60 minutes after now, and returns false at exactly 60 minutes
remaining. -/
theorem C6_canCreateSuggestions_boundary (deadlineMs nowMs : Int) :
    (canCreateSuggestions deadlineMs nowMs = true ↔
      nowMs + 60 * 60 * 1000 < deadlineMs) ∧
    canCreateSuggestions (nowMs + 60 * 60 * 1000) nowMs = false := by
  constructor
  · simp [canCreateSuggestions]
  · simp [canCreateSuggestions]

/-- C10: `getProposalStatus` returns `EXPIRED` iff `getTimeRemaining`
returns "Voting has ended", and on every non-`EXPIRED` status
`getTimeRemaining` returns a positive "N days/hours/minutes left" value. -/
theorem C10_status_timeRemaining_agree (deadlineMs nowMs : Int) :
    (getProposalStatus deadlineMs nowMs = ProposalStatus.EXPIRED ↔
      getTimeRemaining deadlineMs nowMs = TimeRemaining.votingEnded) ∧
    (getProposalStatus deadlineMs nowMs ≠ ProposalStatus.EXPIRED →
      (getTimeRemaining deadlineMs nowMs).positiveLeft) := by
  simp only [getProposalStatus, getTimeRemaining]
  split_ifs <;> simp_all [TimeRemaining.positiveLeft]

/-- Witness for C10 at a concrete input: 25 hours remaining is not
`EXPIRED` and yields a positive time-remaining rendering. -/
theorem C10_status_timeRemaining_agree_witness :
    getProposalStatus 90000000 0 ≠ ProposalStatus.EXPIRED ∧
    (getTimeRemaining 90000000 0).positiveLeft :=
  ⟨by decide, (C10_status_timeRemaining_agree 90000000 0).2 (by decide)⟩

/-- C1, counterexample: refresh request 1 is initiated before request 2,
their responses complete out of order (`reqSeq 2` first, then `reqSeq 1`),
and the stored snapshot ends up as the OLDER request's payload — the code
has no sequence guard, so the older response overwrites the newer result. -/
theorem C1_refresh_ordering_counterexample :
    runResponses none
        [⟨2, FetchResult.ok statusVoted1⟩, ⟨1, FetchResult.ok statusNotActed⟩]
      = some statusNotActed ∧
    statusNotActed ≠ statusVoted1 := by
  constructor
  · rfl
  · decide

/-- C1, amended: the stored voting-status snapshot after a batch of
responses is determined solely by the last response to COMPLETE — each
completing response unconditionally replaces the store, regardless of the
initiation order of the requests. -/
theorem C1_refresh_last_completed_wins (init : Option VotingStatusData)
    (rs : List RefreshResponse) (r : RefreshResponse) :
    runResponses init (rs ++ [r]) = loadVotingStatusResult r.result := by
  simp [runResponses, applyCompletedResponse]

/-- C3: with an absent status every suggestion is not applied; with a known
status a `vote_option` suggestion is applied iff the user voted and the
voted option equals the suggestion's target option, and a `delegate`
suggestion is applied iff the user delegated and the delegate's
`unique_id` equals the suggestion's target user (both compared as
possibly-absent values, as JavaScript `===` does). -/
theorem C3_isSuggestionApplied_spec (st : UserStatus) (s : Suggestion) :
    (isSuggestionApplied none s = false) ∧
    (s.suggestion_type = SuggestionType.vote_option →
      (isSuggestionApplied (some st) s = true ↔
        st.has_voted = true ∧ st.voted_option = s.target_option_number)) ∧
    (s.suggestion_type = SuggestionType.delegate →
      (isSuggestionApplied (some st) s = true ↔
        st.has_delegated = true ∧
          st.delegate_info.map DelegateInfo.unique_id = s.target_user)) := by
  refine ⟨rfl, ?_, ?_⟩ <;> intro h <;> simp [isSuggestionApplied, h]

/-- Witness for C3 at a concrete input: a user who voted for option 2 has a
`vote_option` suggestion targeting option 2 applied. -/
theorem C3_isSuggestionApplied_spec_witness :
    isSuggestionApplied
        (some ⟨true, some 2, none, false, none, true, false⟩)
        ⟨"s1", SuggestionType.vote_option, some 2, none⟩ = true := by
  have h := (C3_isSuggestionApplied_spec
    ⟨true, some 2, none, false, none, true, false⟩
    ⟨"s1", SuggestionType.vote_option, some 2, none⟩).2.1 rfl
  exact h.mpr ⟨rfl, rfl⟩

/-- C7: the vote/delegate buttons are enabled (`isButtonDisabled = false`)
iff the deadline has not passed and no cooldown is reported by the stored
snapshot (an absent snapshot reports no cooldown); if the deadline passed
or a cooldown is active, the buttons are disabled. -/
theorem C7_button_gating (deadlinePassed : Bool)
    (votingStatus : Option VotingStatusData) :
    (isButtonDisabled deadlinePassed votingStatus = false ↔
      deadlinePassed = false ∧ cooldownActiveOf votingStatus = false) ∧
    (deadlinePassed = true ∨ cooldownActiveOf votingStatus = true →
      isButtonDisabled deadlinePassed votingStatus = true) := by
  cases deadlinePassed <;>
    cases hc : cooldownActiveOf votingStatus <;>
    simp [isButtonDisabled, hc]

/-- Witness for C7 at a concrete input: with the deadline passed the
buttons are disabled. -/
theorem C7_button_gating_witness :
    isButtonDisabled true none = true :=
  (C7_button_gating true none).2 (Or.inl rfl)

/-- C8, counterexample: from the expired view state
(`deadlinePassed = true`), a later voting-status refresh response carrying
`is_active = true` flips the state back to non-expired — the EXPIRED state
is not absorbing. -/
theorem C8_expired_not_absorbing_counterexample :
    nextDeadlinePassed true false (some statusNotActed) = false ∧
    statusNotActed.is_active = true := by
  constructor
  · rfl
  · rfl

/-- C8, amended: once the view is expired it stays expired across failed
refreshes and across refresh responses reporting the proposal inactive;
the only event that returns it to the non-expired state is a refresh
response reporting `is_active = true`. -/
theorem C8_expired_persistence (deadlinePassed isExpired : Bool)
    (vs : VotingStatusData) :
    (vs.is_active = false →
      nextDeadlinePassed deadlinePassed isExpired (some vs) = true) ∧
    (nextDeadlinePassed true isExpired none = true) ∧
    (vs.is_active = true →
      nextDeadlinePassed deadlinePassed isExpired (some vs) = false) := by
  refine ⟨fun h => ?_, ?_, fun h => ?_⟩ <;>
    simp_all [nextDeadlinePassed]

/-- Witness for C8's amended statement at a concrete input: an inactive
report keeps the view expired, and `statusNotActed` (active) un-expires
it. -/
theorem C8_expired_persistence_witness :
    nextDeadlinePassed true true none = true ∧
    nextDeadlinePassed true true (some statusNotActed) = false :=
  ⟨(C8_expired_persistence true true statusNotActed).2.1,
   (C8_expired_persistence true true statusNotActed).2.2 rfl⟩

/-- Expression `userVotingStatus?.cooldown_active || false`
(SuggestionDisplay.tsx line 394): the cooldown flag read from a
possibly-absent status, `false` when the status is absent. -/
def suggestionCooldownActive (userVotingStatus : Option UserStatus) : Bool :=
  (userVotingStatus.map fun st => st.cooldown_active).getD false

/-- Disabled condition of a suggestion's Apply button
(SuggestionDisplay.tsx lines 417-424):
`isApplying || isApplied || !votingActive || (cooldownActive && !isApplied)`. -/
def applyButtonDisabled (isApplying isApplied votingActive
    cooldownActive : Bool) : Bool :=
  isApplying || isApplied || !votingActive || (cooldownActive && !isApplied)

/-- C9, counterexample: after a failed refresh the stored status is the
unknown value `none`, yet with the deadline not passed the vote/delegate
buttons are enabled and a suggestion's Apply button is enabled — the
unknown status reads as "no cooldown", so action eligibility is NOT
suppressed while the status is undetermined, refuting the claim's final
conjunct. -/
theorem C9_eligibility_not_suppressed_counterexample :
    loadVotingStatusResult FetchResult.httpError = none ∧
    isButtonDisabled false none = false ∧
    applyButtonDisabled false
        (isSuggestionApplied none ⟨"s1", SuggestionType.vote_option, some 1, none⟩)
        true (suggestionCooldownActive none) = false := by
  refine ⟨rfl, ?_, ?_⟩ <;> decide

/-- C9, amended: a failed refresh (non-ok response or network error) stores
the distinct `none` value; the UI renders that as "Unable to load voting
status", which is not the "You haven't participated yet" rendering; no
suggestion is reported applied from it; but action eligibility is not
suppressed — the unknown status contributes `false` to every cooldown
read, so the controls' enablement is decided by the deadline alone. -/
theorem C9_refresh_failure_unknown_amended (s : Suggestion)
    (deadlinePassed : Bool) :
    loadVotingStatusResult FetchResult.httpError = none ∧
    loadVotingStatusResult FetchResult.networkError = none ∧
    renderVotingStatus none false = StatusView.unableToLoad ∧
    renderVotingStatus none false ≠ StatusView.notParticipated ∧
    isSuggestionApplied none s = false ∧
    isButtonDisabled deadlinePassed none = deadlinePassed ∧
    suggestionCooldownActive none = false := by
  refine ⟨rfl, rfl, rfl, ?_, rfl, ?_, rfl⟩
  · decide
  · cases deadlinePassed <;> rfl

/-- C4, counterexample: a delegate submission with the non-empty target
"alice" is NOT dispatched when the fetched organization user list does not
contain it (here: an empty list, as after a failed fetch) — the
client-side organization user list is a blocking validation source,
contradicting the claim that any non-empty target is dispatched. -/
theorem C4_delegate_preconditions_counterexample :
    (delegateHandleSubmit "alice" [] ⟨false⟩).2 = none ∧
    jsTrim "alice" ≠ "" := by
  constructor
  · decide
  · decide

/-- C4, amended: a delegate submission is dispatched iff no submission is
pending, the trimmed target is non-empty, and the trimmed target matches
the `unique_id` of some fetched organization user case-insensitively (the
user list blocks submission); a vote submission is dispatched iff the
selected option number is nonzero and no submission is pending (neither
handler re-checks expiry or option existence); and any dispatched delegate
submission has a non-empty target. -/
theorem C4_dispatch_preconditions (targetUser : String)
    (orgUsers : List OrganizationUser) (opt : Nat) (st : ActionState) :
    ((delegateHandleSubmit targetUser orgUsers st).2 ≠ none ↔
      st.submitting = false ∧ ¬ jsTrim targetUser = "" ∧
        (orgUsers.any fun user =>
          jsToLower user.unique_id == jsToLower (jsTrim targetUser)) = true) ∧
    ((voteHandleSubmit opt st).2 ≠ none ↔ opt ≠ 0 ∧ st.submitting = false) ∧
    ((delegateHandleSubmit targetUser orgUsers st).2 ≠ none →
      ¬ jsTrim targetUser = "") := by
  obtain ⟨b⟩ := st
  have hval_iff : delegateValidationValid targetUser orgUsers = true ↔
      ¬ jsTrim targetUser = "" ∧
        (orgUsers.any fun user =>
          jsToLower user.unique_id == jsToLower (jsTrim targetUser)) = true := by
    by_cases ht : jsTrim targetUser = "" <;> simp [delegateValidationValid, ht]
  have hdel : (delegateHandleSubmit targetUser orgUsers ⟨b⟩).2 ≠ none ↔
      b = false ∧ delegateValidationValid targetUser orgUsers = true := by
    cases b <;> cases hval : delegateValidationValid targetUser orgUsers <;>
      simp [delegateHandleSubmit, hval]
  have hdel2 := hdel.trans (and_congr_right fun _ => hval_iff)
  refine ⟨hdel2, ?_, fun h => (hdel2.mp h).2.1⟩
  cases b <;> cases opt <;> simp [voteHandleSubmit]

/-- Witness for C4's amended statement at a concrete input: the target
"Alice" matches organization user "alice" case-insensitively, so the
submission is dispatched, and its target is non-empty. -/
theorem C4_dispatch_preconditions_witness :
    (delegateHandleSubmit "Alice" [⟨"alice", "Alice", "A"⟩] ⟨false⟩).2 ≠ none ∧
    ¬ jsTrim "Alice" = "" :=
  ⟨by decide,
   (C4_dispatch_preconditions "Alice" [⟨"alice", "Alice", "A"⟩] 1 ⟨false⟩).2.2
     (by decide)⟩

/-- C5: a first vote submission from the idle state dispatches a request
and marks the state pending; while pending, a second vote attempt and a
delegate attempt both dispatch nothing; only after the pending submission
settles can a further request be sent (and then exactly under the usual
validity guard). -/
theorem C5_single_inflight (opt₁ opt₂ : Nat) (targetUser : String)
    (orgUsers : List OrganizationUser) (h₁ : opt₁ ≠ 0) :
    (voteHandleSubmit opt₁ ⟨false⟩).2 = some opt₁ ∧
    (voteHandleSubmit opt₁ ⟨false⟩).1.submitting = true ∧
    (voteHandleSubmit opt₂ (voteHandleSubmit opt₁ ⟨false⟩).1).2 = none ∧
    (delegateHandleSubmit targetUser orgUsers
        (voteHandleSubmit opt₁ ⟨false⟩).1).2 = none ∧
    ((voteHandleSubmit opt₂ (settleSubmit (voteHandleSubmit opt₁ ⟨false⟩).1)).2
      = if opt₂ = 0 then none else some opt₂) := by
  have hfst : voteHandleSubmit opt₁ ⟨false⟩ = (⟨true⟩, some opt₁) := by
    simp [voteHandleSubmit, h₁]
  refine ⟨by rw [hfst], by rw [hfst], ?_, ?_, ?_⟩
  · rw [hfst]
    simp [voteHandleSubmit]
  · rw [hfst]
    simp [delegateHandleSubmit]
  · rw [hfst]
    by_cases h2 : opt₂ = 0 <;> simp [voteHandleSubmit, settleSubmit, h2]

/-- Witness for C5 at a concrete input: option 1 is valid, and a second
vote attempt while the first is pending issues no request. -/
theorem C5_single_inflight_witness :
    (1 : Nat) ≠ 0 ∧
    (voteHandleSubmit 2 (voteHandleSubmit 1 ⟨false⟩).1).2 = none :=
  ⟨by decide, (C5_single_inflight 1 2 "alice" [] (by decide)).2.2.1⟩

end Frontend
